import Mathlib

/-!
Verification of the bilive-danmaku packet codec and connection lifecycle.

The definitions below are a shallow embedding of `src/packet.rs`,
`src/room.rs` and `src/connector.rs`.  Bytes are modelled as `Nat`
(every real byte is `< 256`); machine-integer truncation is written
explicitly with `% 4294967296` (`as u32`).  A Rust function that can
panic is modelled as returning `Option`, with `none` marking the panic.
External crates (serde_json, brotli, reqwest, tokio-tungstenite) are
modelled as explicit oracle parameters: only their success/failure
shape and returned value matter to the code under verification.
-/

/-- Embeds `read_u32_be` (packet.rs line 15): `split_array_ref::<4>` panics
unless at least 4 bytes remain, then reads a big-endian u32. -/
def read_u32_be : List Nat → Option (Nat × List Nat)
  | a :: b :: c :: d :: rest => some (((a * 256 + b) * 256 + c) * 256 + d, rest)
  | _ => none

/-- Embeds `read_u16_be` (packet.rs line 20): `split_array_ref::<2>` panics
unless at least 2 bytes remain, then reads a big-endian u16. -/
def read_u16_be : List Nat → Option (Nat × List Nat)
  | a :: b :: rest => some (a * 256 + b, rest)
  | _ => none

/-- Big-endian byte serialization of a u32 (`u32::to_be_bytes`, used by
`write_u32_be`, packet.rs line 3). -/
def u32_be_bytes (v : Nat) : List Nat :=
  [v / 16777216 % 256, v / 65536 % 256, v / 256 % 256, v % 256]

/-- Big-endian byte serialization of a u16 (`u16::to_be_bytes`, used by
`write_u16_be`, packet.rs line 9). -/
def u16_be_bytes (v : Nat) : List Nat :=
  [v / 256 % 256, v % 256]

/-- Embeds `RawPacketHead` (packet.rs line 61). -/
structure RawPacketHead where
  size : Nat
  header_size : Nat
  proto_code : Nat
  opcode : Nat
  sequence : Nat
  deriving DecidableEq, Repr

/-- Embeds `RawPacket` (packet.rs line 74); the `RawPacketData` newtype
around `Vec<u8>` is inlined as a `List Nat`. -/
structure RawPacket where
  head : RawPacketHead
  data : List Nat
  deriving DecidableEq, Repr

/-- Embeds the `Operation` enum (packet.rs line 217), discriminants in
declaration order as in Rust. -/
inductive Operation where
  | Handshake
  | HandshakeReply
  | Heartbeat
  | HeartbeatReply
  | SendMsg
  | SendMsgReply
  | DisconnectReply
  | Auth
  | AuthReply
  | ProtoReady
  | ProtoFinish
  | ChangeRoom
  | ChangeRoomReply
  | Register
  | RegisterReply
  | Unregister
  | UnregisterReply
  deriving DecidableEq, Repr

/-- The `op as u32` cast used in `RawPacket::build` (packet.rs line 130). -/
def Operation.toNat : Operation → Nat
  | .Handshake => 0
  | .HandshakeReply => 1
  | .Heartbeat => 2
  | .HeartbeatReply => 3
  | .SendMsg => 4
  | .SendMsgReply => 5
  | .DisconnectReply => 6
  | .Auth => 7
  | .AuthReply => 8
  | .ProtoReady => 9
  | .ProtoFinish => 10
  | .ChangeRoom => 11
  | .ChangeRoomReply => 12
  | .Register => 13
  | .RegisterReply => 14
  | .Unregister => 15
  | .UnregisterReply => 16

/-- The byte literal `b"[object Object]"` (packet.rs line 89). -/
def heartbeatBody : List Nat :=
  [91, 111, 98, 106, 101, 99, 116, 32, 79, 98, 106, 101, 99, 116, 93]

/-- Embeds `RawPacket::heartbeat` (packet.rs line 80). -/
def RawPacket.heartbeat : RawPacket :=
  { head := { size := 31, header_size := 16, proto_code := 1, opcode := 2, sequence := 1 }
    data := heartbeatBody }

/-- Embeds `RawPacket::from_buffer` (packet.rs line 93): five sequential
big-endian header reads, each panicking (`none`) when too few bytes
remain; everything after the 16 header bytes becomes the body verbatim. -/
def RawPacket.from_buffer (buffer : List Nat) : Option RawPacket :=
  match read_u32_be buffer with
  | none => none
  | some (size, buffer) =>
    match read_u16_be buffer with
    | none => none
    | some (header_size, buffer) =>
      match read_u16_be buffer with
      | none => none
      | some (version, buffer) =>
        match read_u32_be buffer with
        | none => none
        | some (opcode, buffer) =>
          match read_u32_be buffer with
          | none => none
          | some (sequence, buffer) =>
            some { head := { size := size, header_size := header_size,
                             proto_code := version, opcode := opcode,
                             sequence := sequence }
                   data := buffer }

/-- Embeds `RawPacket::build` (packet.rs line 127); the total size is
`(16 + data.len()) as u32`, a truncating cast. -/
def RawPacket.build (op : Operation) (data : List Nat) : RawPacket :=
  { head := { size := (16 + data.length) % 4294967296, header_size := 16,
              proto_code := 1, opcode := op.toNat, sequence := 1 }
    data := data }

/-- Embeds `RawPacket::ser` (packet.rs line 143): the 16-byte big-endian
header in field order, followed by the body verbatim (the `write_all`
into the exactly-sized remainder always succeeds). -/
def RawPacket.ser (p : RawPacket) : List Nat :=
  u32_be_bytes p.head.size ++ u16_be_bytes p.head.header_size ++
  u16_be_bytes p.head.proto_code ++ u32_be_bytes p.head.opcode ++
  u32_be_bytes p.head.sequence ++ p.data

/-- Computation rule: `from_buffer` on a buffer with at least 16 bytes
reads the five header fields and keeps the rest as body. -/
theorem from_buffer_cons (a1 a2 a3 a4 a5 a6 a7 a8 a9 a10 a11 a12 a13 a14 a15 a16 : Nat)
    (rest : List Nat) :
    RawPacket.from_buffer
        (a1 :: a2 :: a3 :: a4 :: a5 :: a6 :: a7 :: a8 :: a9 :: a10 :: a11 :: a12 ::
          a13 :: a14 :: a15 :: a16 :: rest) =
      some { head := { size := ((a1 * 256 + a2) * 256 + a3) * 256 + a4,
                       header_size := a5 * 256 + a6,
                       proto_code := a7 * 256 + a8,
                       opcode := ((a9 * 256 + a10) * 256 + a11) * 256 + a12,
                       sequence := ((a13 * 256 + a14) * 256 + a15) * 256 + a16 }
             data := rest } := rfl

/-- Serializing any packet whose header fields are in machine range and
parsing the result back recovers the packet exactly. -/
theorem from_buffer_ser (p : RawPacket)
    (h1 : p.head.size < 4294967296) (h2 : p.head.header_size < 65536)
    (h3 : p.head.proto_code < 65536) (h4 : p.head.opcode < 4294967296)
    (h5 : p.head.sequence < 4294967296) :
    RawPacket.from_buffer (RawPacket.ser p) = some p := by
  obtain ⟨⟨s, hs, pc, oc, sq⟩, d⟩ := p
  simp only [RawPacket.ser, u32_be_bytes, u16_be_bytes, List.cons_append,
    List.nil_append]
  rw [from_buffer_cons]
  simp only [Option.some.injEq, RawPacket.mk.injEq, RawPacketHead.mk.injEq]
  simp only [RawPacket.head] at h1 h2 h3 h4 h5
  refine ⟨⟨?_, ?_, ?_, ?_, ?_⟩, trivial⟩ <;> omega

/-- Every `Operation` discriminant is a small u32. -/
theorem Operation.toNat_lt (op : Operation) : op.toNat < 4294967296 := by
  cases op <;> decide

/-- C1: for every operation code and byte vector, parsing the
serialization of the frame built by `RawPacket::build` round-trips:
`from_buffer (ser (build op body)) = some (build op body)`, equal in
every header field and in the body bytes. -/
theorem build_ser_from_buffer_roundtrip (op : Operation) (data : List Nat) :
    RawPacket.from_buffer (RawPacket.ser (RawPacket.build op data)) =
      some (RawPacket.build op data) := by
  refine from_buffer_ser _ ?_ ?_ ?_ ?_ ?_
  · exact Nat.mod_lt _ (by norm_num)
  · norm_num [RawPacket.build]
  · norm_num [RawPacket.build]
  · exact Operation.toNat_lt op
  · norm_num [RawPacket.build]

/-- A buffer shorter than the 16-byte header makes `from_buffer` panic
(`split_array_ref` out of bounds), modelled as `none`. -/
theorem from_buffer_short (buf : List Nat) (h : buf.length < 16) :
    RawPacket.from_buffer buf = none := by
  rcases buf with _ | ⟨a1, _ | ⟨a2, _ | ⟨a3, _ | ⟨a4, _ | ⟨a5, _ | ⟨a6, _ | ⟨a7, _ | ⟨a8,
    _ | ⟨a9, _ | ⟨a10, _ | ⟨a11, _ | ⟨a12, _ | ⟨a13, _ | ⟨a14, _ | ⟨a15, _ | ⟨a16,
    rest⟩⟩⟩⟩⟩⟩⟩⟩⟩⟩⟩⟩⟩⟩⟩⟩
  · rfl
  · rfl
  · rfl
  · rfl
  · rfl
  · rfl
  · rfl
  · rfl
  · rfl
  · rfl
  · rfl
  · rfl
  · rfl
  · rfl
  · rfl
  · rfl
  · simp only [List.length_cons] at h
    omega

/-- A successful `from_buffer` consumed exactly 16 header bytes: the
input length is the body length plus 16. -/
theorem from_buffer_some_length (buf : List Nat) (p : RawPacket)
    (h : RawPacket.from_buffer buf = some p) : buf.length = p.data.length + 16 := by
  rcases buf with _ | ⟨a1, _ | ⟨a2, _ | ⟨a3, _ | ⟨a4, _ | ⟨a5, _ | ⟨a6, _ | ⟨a7, _ | ⟨a8,
    _ | ⟨a9, _ | ⟨a10, _ | ⟨a11, _ | ⟨a12, _ | ⟨a13, _ | ⟨a14, _ | ⟨a15, _ | ⟨a16,
    rest⟩⟩⟩⟩⟩⟩⟩⟩⟩⟩⟩⟩⟩⟩⟩⟩
  · exact Option.noConfusion h
  · exact Option.noConfusion h
  · exact Option.noConfusion h
  · exact Option.noConfusion h
  · exact Option.noConfusion h
  · exact Option.noConfusion h
  · exact Option.noConfusion h
  · exact Option.noConfusion h
  · exact Option.noConfusion h
  · exact Option.noConfusion h
  · exact Option.noConfusion h
  · exact Option.noConfusion h
  · exact Option.noConfusion h
  · exact Option.noConfusion h
  · exact Option.noConfusion h
  · exact Option.noConfusion h
  · rw [from_buffer_cons] at h
    cases h
    simp

/-- C10: `RawPacket::from_buffer` is only total on inputs of at least
16 bytes: any shorter buffer panics while splitting off the fixed-size
header fields (modelled as `none`), and any buffer of at least 16 bytes
parses to some packet. -/
theorem from_buffer_total_iff :
    (∀ buf : List Nat, buf.length < 16 → RawPacket.from_buffer buf = none) ∧
    (∀ buf : List Nat, 16 ≤ buf.length → ∃ p, RawPacket.from_buffer buf = some p) := by
  constructor
  · exact from_buffer_short
  · intro buf h
    rcases buf with _ | ⟨a1, _ | ⟨a2, _ | ⟨a3, _ | ⟨a4, _ | ⟨a5, _ | ⟨a6, _ | ⟨a7, _ | ⟨a8,
      _ | ⟨a9, _ | ⟨a10, _ | ⟨a11, _ | ⟨a12, _ | ⟨a13, _ | ⟨a14, _ | ⟨a15, _ | ⟨a16,
      rest⟩⟩⟩⟩⟩⟩⟩⟩⟩⟩⟩⟩⟩⟩⟩⟩
    · simp at h
    · simp at h
    · simp at h
    · simp at h
    · simp at h
    · simp at h
    · simp at h
    · simp at h
    · simp at h
    · simp at h
    · simp at h
    · simp at h
    · simp at h
    · simp at h
    · simp at h
    · simp at h
    · exact ⟨_, from_buffer_cons a1 a2 a3 a4 a5 a6 a7 a8 a9 a10 a11 a12 a13 a14 a15 a16 rest⟩

/-- Witness for C10 at concrete inputs: the empty buffer panics and a
16-byte zero buffer parses. -/
theorem from_buffer_total_iff_witness :
    RawPacket.from_buffer [] = none ∧
      ∃ p, RawPacket.from_buffer [0, 0, 0, 0, 0, 0, 0, 0, 0, 0, 0, 0, 0, 0, 0, 0] = some p :=
  ⟨from_buffer_total_iff.1 [] (by decide),
   from_buffer_total_iff.2 [0, 0, 0, 0, 0, 0, 0, 0, 0, 0, 0, 0, 0, 0, 0, 0] (by decide)⟩

/-- C9: `RawPacket::heartbeat` serializes to exactly the 31-byte buffer
made of the big-endian header `(31, 16, 1, 2, 1)` followed by the 15
ASCII bytes of `[object Object]`. -/
theorem heartbeat_ser_literal :
    RawPacket.heartbeat.head = { size := 31, header_size := 16, proto_code := 1,
                                 opcode := 2, sequence := 1 } ∧
    RawPacket.ser RawPacket.heartbeat =
      [0, 0, 0, 31, 0, 16, 0, 1, 0, 0, 0, 2, 0, 0, 0, 1,
       91, 111, 98, 106, 101, 99, 116, 32, 79, 98, 106, 101, 99, 116, 93] ∧
    (RawPacket.ser RawPacket.heartbeat).length = 31 := by
  refine ⟨rfl, ?_, ?_⟩ <;> decide

/-- C3: every frame produced by `heartbeat`, `build`, or `from_buffer`
on a well-formed single-frame buffer (one whose declared total size is
the buffer length and whose declared header size is 16) satisfies
`total_size = header_size + body length` with `header_size = 16`. -/
theorem header_size_invariant :
    (RawPacket.heartbeat.head.size =
        RawPacket.heartbeat.head.header_size + RawPacket.heartbeat.data.length ∧
      RawPacket.heartbeat.head.header_size = 16) ∧
    (∀ (op : Operation) (data : List Nat), 16 + data.length < 4294967296 →
      (RawPacket.build op data).head.size =
          (RawPacket.build op data).head.header_size + (RawPacket.build op data).data.length ∧
        (RawPacket.build op data).head.header_size = 16) ∧
    (∀ (buf : List Nat) (p : RawPacket), RawPacket.from_buffer buf = some p →
      p.head.size = buf.length → p.head.header_size = 16 →
      p.head.size = p.head.header_size + p.data.length) := by
  refine ⟨⟨by decide, rfl⟩, ?_, ?_⟩
  · intro op data h
    constructor
    · simp only [RawPacket.build]
      omega
    · rfl
  · intro buf p hparse hsize hhead
    have := from_buffer_some_length buf p hparse
    omega

/-- Witness for C3 at concrete inputs: a built frame with a 3-byte body
and a parsed 16-byte frame whose declared size matches its length. -/
theorem header_size_invariant_witness :
    ((RawPacket.build Operation.Auth [1, 2, 3]).head.size =
        (RawPacket.build Operation.Auth [1, 2, 3]).head.header_size +
          (RawPacket.build Operation.Auth [1, 2, 3]).data.length ∧
      (RawPacket.build Operation.Auth [1, 2, 3]).head.header_size = 16) ∧
    ({ head := { size := 16, header_size := 16, proto_code := 0, opcode := 0, sequence := 0 },
       data := [] } : RawPacket).head.size =
      ({ head := { size := 16, header_size := 16, proto_code := 0, opcode := 0, sequence := 0 },
         data := [] } : RawPacket).head.header_size +
        ({ head := { size := 16, header_size := 16, proto_code := 0, opcode := 0, sequence := 0 },
           data := [] } : RawPacket).data.length :=
  ⟨header_size_invariant.2.1 Operation.Auth [1, 2, 3] (by decide),
   header_size_invariant.2.2 [0, 0, 0, 16, 0, 16, 0, 0, 0, 0, 0, 0, 0, 0, 0, 0] _
     (by decide) (by decide) (by decide)⟩

/-- Embeds `RawPacket::from_buffers` (packet.rs line 112) as a
fuel-indexed loop on the unread suffix of the buffer.  Each iteration
mirrors the Rust loop body: slicing `buffer[ptr..ptr + 4]` panics
(`none`) when fewer than 4 bytes remain, slicing `buffer[ptr..ptr +
size]` panics when `size` exceeds the remaining bytes, `from_buffer`
panics on a slice shorter than 16 bytes, and the loop breaks once `ptr`
reaches the end.  Fuel exhaustion (`none` at fuel 0) stands for a loop
iteration that would still be running. -/
def RawPacket.from_buffersF : Nat → List Nat → Option (List RawPacket)
  | 0, _ => none
  | fuel + 1, buf =>
    match read_u32_be buf with
    | none => none
    | some (size, _) =>
      if buf.length < size then none
      else
        match RawPacket.from_buffer (buf.take size) with
        | none => none
        | some p =>
          if buf.length ≤ size then some [p]
          else
            match RawPacket.from_buffersF fuel (buf.drop size) with
            | none => none
            | some ps => some (p :: ps)

/-- `RawPacket::from_buffers` with enough fuel for its buffer (the
stability theorem below shows `length + 1` iterations always suffice). -/
def RawPacket.from_buffers (buf : List Nat) : Option (List RawPacket) :=
  RawPacket.from_buffersF (buf.length + 1) buf

/-- Fuel monotonicity for `from_buffersF`: once the fuel covers the
buffer length, adding more fuel cannot change the result, because every
iteration that reaches its recursive call has consumed a frame of at
least 16 bytes. -/
theorem from_buffersF_stable :
    ∀ (n : Nat) (buf : List Nat), buf.length ≤ n → ∀ f, n ≤ f →
      RawPacket.from_buffersF (f + 1) buf = RawPacket.from_buffersF (n + 1) buf := by
  intro n
  induction n using Nat.strong_induction_on with
  | _ n ih =>
    intro buf hbn f hnf
    simp only [RawPacket.from_buffersF]
    cases h1 : read_u32_be buf with
    | none => rfl
    | some r =>
      obtain ⟨size, rest0⟩ := r
      by_cases h2 : buf.length < size
      · simp only [if_pos h2]
      · simp only [if_neg h2]
        cases h3 : RawPacket.from_buffer (buf.take size) with
        | none => rfl
        | some p =>
          by_cases h4 : buf.length ≤ size
          · simp only [if_pos h4]
          · simp only [if_neg h4]
            have hsize : 16 ≤ size := by
              have hlen := from_buffer_some_length _ _ h3
              rw [List.length_take] at hlen
              omega
            have hm : (buf.drop size).length < n := by
              rw [List.length_drop]
              omega
            have e1 : RawPacket.from_buffersF f (buf.drop size) =
                RawPacket.from_buffersF ((buf.drop size).length + 1) (buf.drop size) := by
              have hf1 : f = (f - 1) + 1 := by omega
              rw [hf1]
              exact ih _ hm _ (le_refl _) _ (by omega)
            have e2 : RawPacket.from_buffersF n (buf.drop size) =
                RawPacket.from_buffersF ((buf.drop size).length + 1) (buf.drop size) := by
              have hn1 : n = (n - 1) + 1 := by omega
              rw [hn1]
              exact ih _ hm _ (le_refl _) _ (by omega)
            rw [e1, e2]

/-- C5 (amended): the scan of `from_buffers` never runs forever — a fuel
budget of one iteration more than the buffer length already reaches a
fixed point, because every iteration that continues has consumed a frame
of at least 16 bytes; inputs the scan cannot split gracefully (a
declared size of 0 or below 16, a size past the end, a buffer not tiled
exactly) end in a panic (`none`), not in divergence. -/
theorem from_buffers_fuel_fixed (buf : List Nat) (k : Nat) :
    RawPacket.from_buffersF (buf.length + 1 + k) buf = RawPacket.from_buffers buf := by
  unfold RawPacket.from_buffers
  have h := from_buffersF_stable buf.length buf (le_refl _) (buf.length + k) (by omega)
  have e : buf.length + 1 + k = (buf.length + k) + 1 := by omega
  rw [e, h]

/-- Counterexample to C5 as stated: a 16-byte buffer whose frame
declares `total_size = 0` makes `from_buffers` panic (slice
`buffer[0..0]` fed to `from_buffer` hits `split_array_ref` out of
bounds) instead of slicing off a zero-byte frame and stopping at buffer
exhaustion with a parsed frame list. -/
theorem from_buffers_zero_size_panics :
    RawPacket.from_buffers [0, 0, 0, 0, 0, 0, 0, 0, 0, 0, 0, 0, 0, 0, 0, 0] = none := by
  decide

/-- Stand-in for `serde_json::Value`: the codec under verification never
inspects the parsed document, only stores it, so an opaque tag suffices. -/
structure JsonValue where
  tag : Nat
  deriving DecidableEq, Repr

/-- Oracle type for `serde_json::from_slice::<serde_json::Value>`:
`none` is a deserialization error. -/
abbrev JsonDeser := List Nat → Option JsonValue

/-- Oracle type for brotli decompression (`Decompressor::read_to_end`):
`none` is an `Err`, `some buf` the decompressed bytes. -/
abbrev BrotliDecomp := List Nat → Option (List Nat)

/-- Embeds the `Data` enum (packet.rs line 26). -/
inductive Data where
  | Json (val : JsonValue)
  | Popularity (popularity : Nat)
  | Deflate (s : String)
  deriving DecidableEq, Repr

/-- Embeds `RawPacket::get_datas` (packet.rs line 159), dispatching on
`proto_code`, with a fuel bound on the recursion depth of the
`proto_code = 3` decompression cascade (fuel exhaustion is `none`).
Branch by branch: kind 0 parses JSON and swallows the error as an empty
vector; kind 1 reads a 4-byte big-endian popularity counter,
`split_array_ref::<4>` panicking (`none`) when the body is shorter; kind
2 without the `deflate` feature (the default build) produces the single
placeholder `Data::Deflate("")`; kind 3 returns an empty vector when
decompression fails, and otherwise re-parses the decompressed buffer
with `from_buffers` (whose panics propagate) and flattens the recursive
decodes of every recovered packet in order; any other kind logs and
yields an empty vector. -/
def RawPacket.get_datasF (jp : JsonDeser) (br : BrotliDecomp) :
    Nat → RawPacket → Option (List Data)
  | 0, _ => none
  | fuel + 1, p =>
    if p.head.proto_code = 0 then
      match jp p.data with
      | some v => some [Data.Json v]
      | none => some []
    else if p.head.proto_code = 1 then
      match read_u32_be p.data with
      | some (popularity, _) => some [Data.Popularity popularity]
      | none => none
    else if p.head.proto_code = 2 then
      some [Data.Deflate ""]
    else if p.head.proto_code = 3 then
      match br p.data with
      | none => some []
      | some buffer =>
        match RawPacket.from_buffers buffer with
        | none => none
        | some ps =>
          (List.mapM (fun q => RawPacket.get_datasF jp br fuel q) ps).map List.flatten
    else
      some []

/-- A JSON oracle that rejects every body. -/
def jpNone : JsonDeser := fun _ => none

/-- A brotli oracle for which every body fails to decompress. -/
def brNone : BrotliDecomp := fun _ => none

/-- A brotli oracle that decompresses every body to the empty buffer. -/
def brEmptyOut : BrotliDecomp := fun _ => some []

/-- C2 (amended): decoding swallows malformed bodies without panicking
for kind 0 (invalid JSON), kind 3 (failed decompression) and unknown
kinds, and kind 1 succeeds whenever the body has at least 4 bytes; but a
kind-1 frame whose body is shorter than 4 bytes panics in
`split_array_ref::<4>`, and a kind-3 frame whose body decompresses
successfully to a buffer that `from_buffers` cannot split also panics. -/
theorem get_datas_malformed_body (jp : JsonDeser) (br : BrotliDecomp)
    (fuel : Nat) (p : RawPacket) :
    (p.head.proto_code = 0 → jp p.data = none →
      RawPacket.get_datasF jp br (fuel + 1) p = some []) ∧
    (p.head.proto_code = 3 → br p.data = none →
      RawPacket.get_datasF jp br (fuel + 1) p = some []) ∧
    (p.head.proto_code = 1 → 4 ≤ p.data.length →
      ∃ n, RawPacket.get_datasF jp br (fuel + 1) p = some [Data.Popularity n]) ∧
    (p.head.proto_code = 1 → p.data.length < 4 →
      RawPacket.get_datasF jp br (fuel + 1) p = none) ∧
    (∀ buffer, p.head.proto_code = 3 → br p.data = some buffer →
      RawPacket.from_buffers buffer = none →
      RawPacket.get_datasF jp br (fuel + 1) p = none) ∧
    (4 ≤ p.head.proto_code → RawPacket.get_datasF jp br (fuel + 1) p = some []) := by
  obtain ⟨⟨s, hs, pc, oc, sq⟩, d⟩ := p
  simp only [RawPacket.head, RawPacket.data, RawPacketHead.proto_code]
  refine ⟨?_, ?_, ?_, ?_, ?_, ?_⟩
  · intro h0 hjp
    subst h0
    simp only [RawPacket.get_datasF, hjp]
    norm_num
  · intro h3 hbr
    subst h3
    simp only [RawPacket.get_datasF, hbr]
    norm_num
  · intro h1 hlen
    subst h1
    simp only [RawPacket.get_datasF]
    norm_num
    rcases d with _ | ⟨a, _ | ⟨b, _ | ⟨c, _ | ⟨e, rest⟩⟩⟩⟩
    · simp at hlen
    · simp at hlen
    · simp at hlen
    · simp at hlen
    · exact ⟨_, rfl⟩
  · intro h1 hlen
    subst h1
    simp only [RawPacket.get_datasF]
    norm_num
    rcases d with _ | ⟨a, _ | ⟨b, _ | ⟨c, _ | ⟨e, rest⟩⟩⟩⟩
    · rfl
    · rfl
    · rfl
    · rfl
    · simp at hlen
      omega
  · intro buffer h3 hbr hfb
    subst h3
    simp only [RawPacket.get_datasF, hbr, hfb]
    norm_num
  · intro h4
    have e0 : ¬ pc = 0 := by omega
    have e1 : ¬ pc = 1 := by omega
    have e2 : ¬ pc = 2 := by omega
    have e3 : ¬ pc = 3 := by omega
    simp only [RawPacket.get_datasF, e0, e1, e2, e3, if_neg, if_false]

/-- Witness for C2 at concrete inputs: an invalid-JSON kind-0 frame and
a failed-decompression kind-3 frame both decode to the empty list. -/
theorem get_datas_malformed_body_witness :
    RawPacket.get_datasF jpNone brNone 1
        { head := { size := 17, header_size := 16, proto_code := 0, opcode := 5, sequence := 1 },
          data := [123] } = some [] ∧
    RawPacket.get_datasF jpNone brNone 1
        { head := { size := 17, header_size := 16, proto_code := 3, opcode := 5, sequence := 1 },
          data := [42] } = some [] :=
  ⟨(get_datas_malformed_body jpNone brNone 0 _).1 rfl rfl,
   (get_datas_malformed_body jpNone brNone 0 _).2.1 rfl rfl⟩

/-- Counterexample to C2 as stated: a kind-1 frame whose body is empty
(shorter than 4 bytes) makes `get_datas` panic in
`split_array_ref::<4>` (modelled as `none`) instead of returning an
empty result. -/
theorem get_datas_kind1_short_panics :
    RawPacket.get_datasF jpNone brNone 1
        { head := { size := 16, header_size := 16, proto_code := 1, opcode := 3, sequence := 1 },
          data := [] } = none ∧
    RawPacket.get_datasF jpNone brNone 1
        { head := { size := 16, header_size := 16, proto_code := 1, opcode := 3, sequence := 1 },
          data := [] } ≠ some [] := by
  constructor
  · decide
  · decide

/-- A kind-0 inner frame carrying the body `[1, 2, 3]`. -/
def innerPacket1 : RawPacket :=
  { head := { size := 19, header_size := 16, proto_code := 0, opcode := 5, sequence := 1 },
    data := [1, 2, 3] }

/-- A kind-0 inner frame carrying the body `[4, 5, 6]`. -/
def innerPacket2 : RawPacket :=
  { head := { size := 19, header_size := 16, proto_code := 0, opcode := 5, sequence := 1 },
    data := [4, 5, 6] }

/-- The concatenation of the serializations of the two inner frames,
playing the role of a decompressed kind-3 body. -/
def innerBuffer : List Nat := RawPacket.ser innerPacket1 ++ RawPacket.ser innerPacket2

/-- A JSON oracle giving the two inner bodies distinct parsed values. -/
def jpTwo : JsonDeser := fun l =>
  if l = [1, 2, 3] then some { tag := 1 }
  else if l = [4, 5, 6] then some { tag := 2 }
  else none

/-- A brotli oracle decompressing the body `[9]` to `innerBuffer`. -/
def brTwo : BrotliDecomp := fun l =>
  if l = [9] then some innerBuffer else none

/-- A kind-3 outer frame whose body decompresses (under `brTwo`) to the
two serialized inner frames. -/
def outerPacket3 : RawPacket :=
  { head := { size := 17, header_size := 16, proto_code := 3, opcode := 5, sequence := 1 },
    data := [9] }

/-- C4 (amended): a kind-3 frame whose body decompresses to a buffer
that `from_buffers` splits into one or more complete frames decodes to
the in-order concatenation of the recursive decode results of those
frames; in particular, with two valid kind-0 frames carrying distinct
structured values it yields exactly those two `Data::Json` items in
order.  An empty decompressed body is excluded: it panics (see the
counterexample). -/
theorem get_datas_decompress_flatten :
    (∀ (jp : JsonDeser) (br : BrotliDecomp) (fuel : Nat) (p : RawPacket)
        (buffer : List Nat) (ps : List RawPacket) (ds : List (List Data)),
      p.head.proto_code = 3 → br p.data = some buffer →
      RawPacket.from_buffers buffer = some ps →
      List.mapM (fun q => RawPacket.get_datasF jp br fuel q) ps = some ds →
      RawPacket.get_datasF jp br (fuel + 1) p = some ds.flatten) ∧
    RawPacket.get_datasF jpTwo brTwo 2 outerPacket3 =
      some [Data.Json { tag := 1 }, Data.Json { tag := 2 }] := by
  constructor
  · intro jp br fuel p buffer ps ds h3 hbr hfb hmap
    obtain ⟨⟨s, hs, pc, oc, sq⟩, d⟩ := p
    simp only [RawPacket.head, RawPacketHead.proto_code] at h3
    simp only [RawPacket.data] at hbr
    subst h3
    simp only [RawPacket.get_datasF, hbr, hfb, hmap]
    norm_num
  · decide

/-- Witness for C4: the general concatenation rule applied at the
concrete two-frame instance. -/
theorem get_datas_decompress_flatten_witness :
    RawPacket.get_datasF jpTwo brTwo 2 outerPacket3 =
      some (List.flatten [[Data.Json { tag := 1 }], [Data.Json { tag := 2 }]]) :=
  get_datas_decompress_flatten.1 jpTwo brTwo 1 outerPacket3 innerBuffer
    [innerPacket1, innerPacket2] [[Data.Json { tag := 1 }], [Data.Json { tag := 2 }]]
    rfl (by decide) (by decide) (by decide)

/-- Counterexample to C4 as stated: a kind-3 frame whose body
decompresses to the empty buffer (zero contained frames) panics —
`from_buffers` slices `buffer[0..4]` out of an empty vector — instead of
decoding to the empty list. -/
theorem get_datas_decompress_empty_panics :
    RawPacket.get_datasF jpNone brEmptyOut 1
        { head := { size := 17, header_size := 16, proto_code := 3, opcode := 5, sequence := 1 },
          data := [0] } = none ∧
    RawPacket.get_datasF jpNone brEmptyOut 1
        { head := { size := 17, header_size := 16, proto_code := 3, opcode := 5, sequence := 1 },
          data := [0] } ≠ some [] := by
  constructor
  · decide
  · decide

/-- C6 (amended): in the default build (no `deflate` feature) a kind-2
frame decodes to the one-element list holding the placeholder
`Data::Deflate("")` — not to the empty list; downstream the placeholder
carries no decoded payload. -/
theorem get_datas_kind2_placeholder (jp : JsonDeser) (br : BrotliDecomp)
    (fuel : Nat) (p : RawPacket) (h2 : p.head.proto_code = 2) :
    RawPacket.get_datasF jp br (fuel + 1) p = some [Data.Deflate ""] := by
  obtain ⟨⟨s, hs, pc, oc, sq⟩, d⟩ := p
  simp only [RawPacket.head, RawPacketHead.proto_code] at h2
  subst h2
  simp only [RawPacket.get_datasF]
  norm_num

/-- Witness for C6 at a concrete kind-2 frame. -/
theorem get_datas_kind2_placeholder_witness :
    RawPacket.get_datasF jpNone brNone 1
        { head := { size := 18, header_size := 16, proto_code := 2, opcode := 5, sequence := 1 },
          data := [1, 2] } = some [Data.Deflate ""] :=
  get_datas_kind2_placeholder jpNone brNone 0 _ rfl

/-- Counterexample to C6 as stated: the kind-2 decode result is a
one-element list, not the empty list. -/
theorem get_datas_kind2_not_empty :
    RawPacket.get_datasF jpNone brNone 1
        { head := { size := 16, header_size := 16, proto_code := 2, opcode := 5, sequence := 1 },
          data := [] } = some [Data.Deflate ""] ∧
    RawPacket.get_datasF jpNone brNone 1
        { head := { size := 16, header_size := 16, proto_code := 2, opcode := 5, sequence := 1 },
          data := [] } ≠ some [] := by
  constructor
  · decide
  · decide

/-- Embeds `Host` (room.rs line 183). -/
structure Host where
  host : String
  wss_port : Nat
  deriving DecidableEq, Repr

/-- Embeds the `Disconnected` status payload (room.rs line 12). -/
structure Disconnected where
  key : String
  host_list : List Host
  deriving DecidableEq, Repr

/-- Embeds `RoomService<Uninited>` (room.rs line 22): only the room id. -/
structure UninitedRoom where
  roomid : Nat
  deriving DecidableEq, Repr

/-- Embeds `RoomService<Disconnected>` (room.rs line 22). -/
structure DisconnectedRoom where
  roomid : Nat
  status : Disconnected
  deriving DecidableEq, Repr

/-- Embeds `RoomService<Connected>` (room.rs line 22); the broadcast
sender and the spawned task handle have no observable pure state, so
only the `fallback` record is kept. -/
structure ConnectedRoom where
  roomid : Nat
  fallback : Disconnected
  deriving DecidableEq, Repr

/-- Embeds `RoomPlayInfoData` (room.rs line 153). -/
structure RoomPlayInfoData where
  room_id : Nat
  deriving DecidableEq, Repr

/-- Embeds `RoomPlayInfo` (room.rs line 162). -/
structure RoomPlayInfo where
  data : Option RoomPlayInfoData
  deriving DecidableEq, Repr

/-- Embeds `ResponseData` (room.rs line 177). -/
structure ResponseData where
  token : String
  host_list : List Host
  deriving DecidableEq, Repr

/-- Embeds `Response` (room.rs line 168). -/
structure RoomResponse where
  data : ResponseData
  deriving DecidableEq, Repr

/-- Oracle for one `reqwest::get` call as `init` consumes it:
`netErr` is a transport `Err`, `badStatus` a non-success HTTP status,
`textErr` a failed `resp.text()`, and `body parsed` a received text body
whose serde parse result is `parsed` (`none` = unparsable). -/
inductive HttpResp (α : Type) where
  | netErr
  | badStatus
  | textErr
  | body (parsed : Option α)
  deriving DecidableEq, Repr

/-- Embeds `ConnectError` (room.rs line 197). -/
inductive ConnectError where
  | HostListIsEmpty
  | WsError (msg : String)
  deriving DecidableEq, Repr

/-- Outcome of `tokio_ws2::connect_async` followed by
`RoomConnection::start`: `connErr` is a websocket connect `Err`, and
`connOk hs` a connected stream whose handshake succeeded iff `hs`. -/
inductive WsOutcome where
  | connErr (msg : String)
  | connOk (handshake_ok : Bool)
  deriving DecidableEq, Repr

/-- The room-id update performed between the two HTTP calls of `init`
(room.rs line 44): the canonical id when the first response carries one,
otherwise the original id. -/
def resolvedRoomid (svc : UninitedRoom) (info : RoomPlayInfo) : Nat :=
  match info.data with
  | some d => d.room_id
  | none => svc.roomid

/-- Embeds `RoomService::<Uninited>::init` (room.rs line 37) over the
oracle results of its two HTTP requests.  Transport errors, bad
statuses and unreadable text bodies return `Err((self, ()))`; an
unparsable JSON body hits `serde_json::from_str(..).unwrap()` and
panics (`none`); note that `self.roomid` is overwritten with the
canonical room id before the second request, so a failure of the second
request returns the mutated state. -/
def RoomService.init (svc : UninitedRoom) (r1 : HttpResp RoomPlayInfo)
    (r2 : HttpResp RoomResponse) :
    Option (Except (UninitedRoom × Unit) DisconnectedRoom) :=
  match r1 with
  | .netErr => some (.error (svc, ()))
  | .badStatus => some (.error (svc, ()))
  | .textErr => some (.error (svc, ()))
  | .body none => none
  | .body (some info) =>
    let roomid := resolvedRoomid svc info
    match r2 with
    | .netErr => some (.error ({ roomid := roomid }, ()))
    | .badStatus => some (.error ({ roomid := roomid }, ()))
    | .textErr => some (.error ({ roomid := roomid }, ()))
    | .body none => none
    | .body (some resp) =>
      some (.ok { roomid := roomid,
                  status := { key := resp.data.token, host_list := resp.data.host_list } })

/-- Embeds `RoomService::<Disconnected>::connect` (room.rs line 87) over
the oracle outcome of the websocket connection: an empty host list fails
with `HostListIsEmpty` before any network use; a websocket connect error
becomes `WsError`; a handshake failure hits
`RoomConnection::start(..).unwrap()` and panics (`none`). -/
def RoomService.connect (svc : DisconnectedRoom) (ws : WsOutcome) :
    Option (Except (DisconnectedRoom × ConnectError) ConnectedRoom) :=
  if svc.status.host_list.isEmpty then
    some (.error (svc, .HostListIsEmpty))
  else
    match ws with
    | .connErr e => some (.error (svc, .WsError e))
    | .connOk false => none
    | .connOk true => some (.ok { roomid := svc.roomid, fallback := svc.status })

/-- C7 (amended): failures of the first HTTP request of `init`
(transport error, non-success status, unreadable text) return the
original `Uninited` state unchanged, original room id included;
failures of the second request return the `Uninited` state with the
room id already rewritten to the canonical id resolved by the first
response; an unparsable JSON body in either request panics
(`serde_json .. .unwrap()`) instead of returning an error; and whenever
`connect` returns an error the `Disconnected` state comes back unchanged
(a failed handshake panics instead of returning). -/
theorem init_connect_failure_atomicity :
    (∀ (svc : UninitedRoom) (r2 : HttpResp RoomResponse),
      RoomService.init svc .netErr r2 = some (.error (svc, ())) ∧
      RoomService.init svc .badStatus r2 = some (.error (svc, ())) ∧
      RoomService.init svc .textErr r2 = some (.error (svc, ()))) ∧
    (∀ (svc : UninitedRoom) (info : RoomPlayInfo),
      RoomService.init svc (.body (some info)) .netErr =
          some (.error ({ roomid := resolvedRoomid svc info }, ())) ∧
      RoomService.init svc (.body (some info)) .badStatus =
          some (.error ({ roomid := resolvedRoomid svc info }, ())) ∧
      RoomService.init svc (.body (some info)) .textErr =
          some (.error ({ roomid := resolvedRoomid svc info }, ()))) ∧
    (∀ (svc : UninitedRoom) (r2 : HttpResp RoomResponse),
      RoomService.init svc (.body none) r2 = none) ∧
    (∀ (svc : UninitedRoom) (info : RoomPlayInfo),
      RoomService.init svc (.body (some info)) (.body none) = none) ∧
    (∀ (svc : DisconnectedRoom) (ws : WsOutcome) (st : DisconnectedRoom)
        (e : ConnectError),
      RoomService.connect svc ws = some (.error (st, e)) → st = svc) := by
  refine ⟨fun svc r2 => ⟨rfl, rfl, rfl⟩, fun svc info => ⟨rfl, rfl, rfl⟩,
    fun svc r2 => rfl, fun svc info => rfl, ?_⟩
  intro svc ws st e h
  unfold RoomService.connect at h
  by_cases hl : svc.status.host_list.isEmpty
  · rw [if_pos hl] at h
    cases h
    rfl
  · rw [if_neg hl] at h
    cases ws with
    | connErr m =>
      simp only [Option.some.injEq, Except.error.injEq, Prod.mk.injEq] at h
      exact h.1.symm
    | connOk ok =>
      cases ok
      · cases h
      · cases h

/-- Witness for C7 at concrete inputs: a first-request network error
keeps room id 5, and a connect websocket error returns the same
`Disconnected` state. -/
theorem init_connect_failure_atomicity_witness :
    RoomService.init { roomid := 5 } .netErr (.body none) =
        some (.error ({ roomid := 5 }, ())) ∧
    ({ roomid := 7, status := { key := "k", host_list := [{ host := "h", wss_port := 443 }] } } :
        DisconnectedRoom) =
      { roomid := 7, status := { key := "k", host_list := [{ host := "h", wss_port := 443 }] } } :=
  ⟨(init_connect_failure_atomicity.1 { roomid := 5 } (.body none)).1,
   init_connect_failure_atomicity.2.2.2.2
     { roomid := 7, status := { key := "k", host_list := [{ host := "h", wss_port := 443 }] } }
     (.connErr "boom")
     { roomid := 7, status := { key := "k", host_list := [{ host := "h", wss_port := 443 }] } }
     (.WsError "boom")
     (by unfold RoomService.connect; rfl)⟩

/-- Counterexample to C7 as stated: an unparsable body in `init` does
not yield an error return — it panics (`unwrap` on the serde result),
modelled as `none`. -/
theorem init_unparsable_body_panics :
    RoomService.init { roomid := 5 } (.body none) .netErr = none := rfl

/-- C8: `connect` on an empty host list fails immediately with
`HostListIsEmpty`, without consulting the websocket (no network I/O:
the result is the same for every websocket outcome) and with the state
returned unchanged; conversely `HostListIsEmpty` is only returned when
the host list is empty. -/
theorem connect_empty_host_list :
    (∀ (svc : DisconnectedRoom) (ws : WsOutcome), svc.status.host_list = [] →
      RoomService.connect svc ws = some (.error (svc, .HostListIsEmpty)) ∧
      ∀ ws2 : WsOutcome, RoomService.connect svc ws = RoomService.connect svc ws2) ∧
    (∀ (svc : DisconnectedRoom) (ws : WsOutcome) (st : DisconnectedRoom),
      RoomService.connect svc ws = some (.error (st, .HostListIsEmpty)) →
      svc.status.host_list = []) := by
  constructor
  · intro svc ws hempty
    have he : svc.status.host_list.isEmpty = true := by
      rw [hempty]
      rfl
    constructor
    · unfold RoomService.connect
      rw [if_pos he]
    · intro ws2
      unfold RoomService.connect
      rw [if_pos he, if_pos he]
  · intro svc ws st h
    by_cases hl : svc.status.host_list.isEmpty
    · exact List.isEmpty_iff.mp hl
    · exfalso
      unfold RoomService.connect at h
      rw [if_neg hl] at h
      cases ws with
      | connErr m =>
        simp only [Option.some.injEq, Except.error.injEq, Prod.mk.injEq] at h
        exact ConnectError.noConfusion h.2
      | connOk ok =>
        cases ok
        · cases h
        · cases h

/-- Witness for C8 at a concrete empty-host-list state. -/
theorem connect_empty_host_list_witness :
    RoomService.connect { roomid := 3, status := { key := "t", host_list := [] } }
        (.connOk true) =
      some (.error ({ roomid := 3, status := { key := "t", host_list := [] } },
        .HostListIsEmpty)) :=
  (connect_empty_host_list.1
    { roomid := 3, status := { key := "t", host_list := [] } } (.connOk true) rfl).1
